import Mathlib

/-
Verification of the opentelemetry-rust basic example and of the
tracing-and-metrics pipeline core its specification describes.

The repository's only source file, `examples/basic/src/main.rs`, is glue
code into the opentelemetry library; the specification describes the
minimal pipeline core (Context/baggage, Span lifecycle, Tracer,
Meter/Instruments, BatchProcessor, Exporter) such an example exercises.
Definitions below that embed that core carry a doc comment starting
`Modelled from the spec:`; the remaining definitions are translated
directly from `main.rs`.
-/

namespace OTelSpec

/-- A baggage or attribute key; `Key::from_static_str` wraps a string. -/
abbrev Key := String

/-- A key-value pair, as `opentelemetry::KeyValue` (values abstracted to strings). -/
structure KeyValue where
  key : Key
  value : String
deriving DecidableEq

/-! ## Context and baggage (spec section 4.1) -/

/-- Modelled from the spec: a Context is an immutable snapshot holding a
mapping of baggage keys to values and zero-or-one current Span reference
(the span is referred to by its numeric span id). -/
structure Context where
  baggage : List KeyValue
  activeSpan : Option Nat
deriving DecidableEq

/-- Modelled from the spec: the empty root Context created at process start. -/
def rootContext : Context := { baggage := [], activeSpan := none }

/-- Modelled from the spec: the stack of attached Contexts of one execution
path; the head is the innermost attached Context. -/
abbrev ContextStack := List Context

/-- Modelled from the spec: `current()` returns the innermost attached
Context, or the empty root Context when nothing is attached. -/
def current (cs : ContextStack) : Context := cs.headD rootContext

/-- Modelled from the spec: merging new baggage entries over a parent
Context: lookups prefer the new entries, the parent is untouched
(copy-on-attach). -/
def mergeBaggage (c : Context) (entries : List KeyValue) : Context :=
  { c with baggage := entries ++ c.baggage }

/-- Modelled from the spec: baggage lookup in a Context; the frontmost
entry for a key wins. -/
def lookupBaggage (c : Context) (k : Key) : Option String :=
  (c.baggage.find? (fun kv => kv.key == k)).map (fun kv => kv.value)

/-- Modelled from the spec: `attach(baggage_entries)` derives a child
Context by merging the entries over `current()` and pushes it; the
returned guard is represented by the position in the stack. -/
def attach (cs : ContextStack) (entries : List KeyValue) : ContextStack :=
  mergeBaggage (current cs) entries :: cs

/-- Modelled from the spec: releasing the guard pops the attached Context,
so `current()` reverts to the prior Context. -/
def release (cs : ContextStack) : ContextStack := cs.tail

/-! ## Span lifecycle (spec section 4.2) -/

/-- Modelled from the spec: Span states `Created → Recording → Ended`
(`start_span` returns the span already Recording). -/
inductive SpanState where
  | recording
  | ended
deriving DecidableEq

/-- Modelled from the spec: the error taxonomy of section 7 that the span
and processor operations below can raise. -/
inductive TelemetryError where
  | invalidState
  | validationError
  | conflictError
  | shutdownError
deriving DecidableEq

/-- Modelled from the spec: a Span: trace identifiers, name, timestamps,
ordered attribute and event sequences, and its lifecycle state. -/
structure Span where
  spanId : Nat
  parentSpanId : Option Nat
  name : String
  startTime : Nat
  endTime : Option Nat
  attributes : List KeyValue
  events : List (String × List KeyValue)
  state : SpanState
deriving DecidableEq

/-- Modelled from the spec: `set_attribute(kv)` appends while Recording;
after Ended it fails with `InvalidStateError`. -/
def Span.set_attribute (s : Span) (kv : KeyValue) : Except TelemetryError Span :=
  match s.state with
  | .recording => .ok { s with attributes := s.attributes ++ [kv] }
  | .ended => .error .invalidState

/-- Modelled from the spec: `add_event(name, attrs)` appends while
Recording; after Ended it fails with `InvalidStateError`. -/
def Span.add_event (s : Span) (n : String) (attrs : List KeyValue) :
    Except TelemetryError Span :=
  match s.state with
  | .recording => .ok { s with events := s.events ++ [(n, attrs)] }
  | .ended => .error .invalidState

/-- Modelled from the spec: `end()` transitions to Ended and stamps the
end time; ending an already-Ended span fails with `InvalidStateError`. -/
def Span.endSpan (s : Span) (t : Nat) : Except TelemetryError Span :=
  match s.state with
  | .recording => .ok { s with state := .ended, endTime := some t }
  | .ended => .error .invalidState

/-- One call made on a span between `start_span` and `end`: either
`add_event` or `set_attribute`. -/
inductive SpanCall where
  | addEvent (n : String) (attrs : List KeyValue)
  | setAttribute (kv : KeyValue)
deriving DecidableEq

/-- Apply one `SpanCall` to a span. -/
def applyCall (s : Span) : SpanCall → Except TelemetryError Span
  | .addEvent n attrs => s.add_event n attrs
  | .setAttribute kv => s.set_attribute kv

/-- Apply a sequence of `SpanCall`s in order, stopping at the first error. -/
def applyCalls (s : Span) : List SpanCall → Except TelemetryError Span
  | [] => .ok s
  | c :: cs => (applyCall s c).bind (fun s2 => applyCalls s2 cs)

/-- The events a call sequence records, in call order. -/
def callEvents : List SpanCall → List (String × List KeyValue)
  | [] => []
  | .addEvent n attrs :: cs => (n, attrs) :: callEvents cs
  | .setAttribute _ :: cs => callEvents cs

/-- The attributes a call sequence sets, in call order. -/
def callAttrs : List SpanCall → List KeyValue
  | [] => []
  | .addEvent _ _ :: cs => callAttrs cs
  | .setAttribute kv :: cs => kv :: callAttrs cs

lemma applyCalls_recording (calls : List SpanCall) :
    ∀ s : Span, s.state = .recording →
      ∃ s2, applyCalls s calls = .ok s2 ∧ s2.state = .recording ∧
        s2.events = s.events ++ callEvents calls ∧
        s2.attributes = s.attributes ++ callAttrs calls := by
  induction calls with
  | nil => intro s hs; exact ⟨s, rfl, hs, by simp [callEvents], by simp [callAttrs]⟩
  | cons c cs ih =>
    rintro ⟨sid, pid, nm, t0, te, at0, ev, st⟩ hs
    obtain rfl : st = SpanState.recording := hs
    cases c with
    | addEvent n attrs =>
      obtain ⟨s2, h2, hst, hev, hat⟩ :=
        ih ⟨sid, pid, nm, t0, te, at0, ev ++ [(n, attrs)], .recording⟩ rfl
      refine ⟨s2, ?_, hst, ?_, ?_⟩
      · simpa [applyCalls, applyCall, Span.add_event] using h2
      · simpa [callEvents] using hev
      · simpa [callAttrs] using hat
    | setAttribute kv =>
      obtain ⟨s2, h2, hst, hev, hat⟩ :=
        ih ⟨sid, pid, nm, t0, te, at0 ++ [kv], ev, .recording⟩ rfl
      refine ⟨s2, ?_, hst, ?_, ?_⟩
      · simpa [applyCalls, applyCall, Span.set_attribute] using h2
      · simpa [callEvents] using hev
      · simpa [callAttrs] using hat

/-! ## Tracer (spec section 4.2) -/

/-- Modelled from the spec: the tracer-visible world: the attached-Context
stack of the current execution path, a fresh-span-id counter, a logical
clock for timestamps, and the exporter queue of ended spans. -/
structure TraceWorld where
  ctxStack : ContextStack
  nextId : Nat
  clock : Nat
  exported : List Span
deriving DecidableEq

/-- The current Context of a `TraceWorld`. -/
def currentCtx (w : TraceWorld) : Context := current w.ctxStack

/-- Modelled from the spec: `start_span(name, optional_parent)` creates a
Span in Recording state, using the current Context's active span as parent
if none given; returns the span handle plus a Context with this span
attached, and the advanced world. -/
def start_span (w : TraceWorld) (name : String) (explicitParent : Option Nat) :
    Span × Context × TraceWorld :=
  let parent := match explicitParent with
    | some p => some p
    | none => (currentCtx w).activeSpan
  let sp : Span :=
    { spanId := w.nextId, parentSpanId := parent, name := name,
      startTime := w.clock, endTime := none, attributes := [], events := [],
      state := .recording }
  let cx : Context := { currentCtx w with activeSpan := some sp.spanId }
  (sp, cx, { w with nextId := w.nextId + 1, clock := w.clock + 1 })

/-- Attach a Context onto the world's stack (scope entry). -/
def attachContext (w : TraceWorld) (cx : Context) : TraceWorld :=
  { w with ctxStack := cx :: w.ctxStack }

/-- Release the innermost attached Context (scope exit). -/
def releaseContext (w : TraceWorld) : TraceWorld :=
  { w with ctxStack := w.ctxStack.tail }

/-- End a span unconditionally at the world's clock and enqueue it into the
exporter queue (the drop-guard path of `in_span`). -/
def endAndExport (w : TraceWorld) (sp : Span) : TraceWorld :=
  { w with
    exported := w.exported ++ [{ sp with state := .ended, endTime := some w.clock }] }

/-- Start the span of `in_span` and run the body with the span's Context
attached; the body receives the span handle and the world and returns its
outcome (possibly a failure), the span as mutated, and the world. -/
def runBody (w : TraceWorld) (name : String)
    (body : Span → TraceWorld → Except ε α × Span × TraceWorld) :
    Except ε α × Span × TraceWorld :=
  match start_span w name none with
  | (sp, cx, w1) => body sp (attachContext w1 cx)

/-- Modelled from the spec: `in_span(name, body)` starts a span, attaches
its Context for the duration of the body, always ends the span on exit
(the end/export and the guard release do not depend on the body's
outcome), and returns the body's outcome. -/
def in_span (w : TraceWorld) (name : String)
    (body : Span → TraceWorld → Except ε α × Span × TraceWorld) :
    Except ε α × TraceWorld :=
  match runBody w name body with
  | (outcome, sp2, w2) => (outcome, releaseContext (endAndExport w2 sp2))

/-- The nested scenario of the spec: `in_span "parent"` whose body runs
`in_span "child"` with a body that does nothing, no explicit parent
anywhere. -/
def nestedProgram (w : TraceWorld) : Except Unit Unit × TraceWorld :=
  in_span w "parent" (fun sp w1 =>
    match in_span w1 "child" (fun spc w2 => (Except.ok (), spc, w2)) with
    | (outcome, w3) => (outcome, sp, w3))

/-! ## BatchProcessor (spec sections 4.4 and 5) -/

/-- Modelled from the spec: `ExportError`, the failure an Exporter reports
(network/serialization). -/
structure ExportError where
  message : String
deriving DecidableEq

/-- Modelled from the spec: BatchProcessor states
`Idle → Draining → Exporting → Idle` with the `ShuttingDown → Drained`
terminal path. -/
inductive ProcState where
  | idle
  | draining
  | exporting
  | shuttingDown
  | drained
deriving DecidableEq

/-- Modelled from the spec: the BatchProcessor over items of type `α`:
the active buffer, the successfully exported batches, and an internal
error counter for dropped batches. -/
structure Processor (α : Type) where
  state : ProcState
  buffer : List α
  errorCount : Nat
  exportedBatches : List (List α)
deriving DecidableEq

/-- Modelled from the spec: the application-path append to the active
buffer; it is total and never blocks or fails. -/
def appendItem (p : Processor α) (x : α) : Processor α :=
  { p with buffer := p.buffer ++ [x] }

/-- Modelled from the spec: one Idle→Draining→Exporting→Idle cycle:
the active buffer is swapped out for a fresh empty one, the Exporter is
called on the batch; on success the batch is kept as exported, on failure
the batch is dropped and the error counter increments. The cycle always
returns a Processor, never an error. -/
def drainExport (p : Processor α) (exporter : List α → Except ExportError Unit) :
    Processor α :=
  let batch := p.buffer
  match exporter batch with
  | .ok _ =>
    { p with state := .idle, buffer := [],
             exportedBatches := p.exportedBatches ++ [batch] }
  | .error _ =>
    { p with state := .idle, buffer := [], errorCount := p.errorCount + 1 }

/-! ## Concurrent producers against the drain swap (spec section 5)

Concurrency is embedded as interleavings: each interleaved execution of
producers appending to the active buffer while drain swaps occur is one
sequence of atomic actions, the buffer swap being the single serialization
point the spec names. -/

/-- One atomic action at the buffer: a producer appends one item, or the
processor performs the drain swap. -/
inductive BufAction (α : Type) where
  | append (x : α)
  | swap
deriving DecidableEq

/-- Modelled from the spec: the shared state the actions act on: the
active buffer and the batches swapped out so far. -/
structure BufState (α : Type) where
  active : List α
  batches : List (List α)
deriving DecidableEq

/-- One atomic step: append pushes onto the active buffer; swap moves the
active buffer out as a batch and installs a fresh empty buffer. -/
def stepBuf (s : BufState α) : BufAction α → BufState α
  | .append x => { s with active := s.active ++ [x] }
  | .swap => { active := [], batches := s.batches ++ [s.active] }

/-- Run an interleaving (a sequence of atomic actions) from a state. -/
def runBuf (s : BufState α) : List (BufAction α) → BufState α
  | [] => s
  | a :: rest => runBuf (stepBuf s a) rest

/-- The items the producers appended over an interleaving, in order. -/
def appendedItems : List (BufAction α) → List α
  | [] => []
  | .append x :: rest => x :: appendedItems rest
  | .swap :: rest => appendedItems rest

lemma runBuf_join (acts : List (BufAction α)) :
    ∀ s : BufState α,
      (runBuf s acts).batches.flatten ++ (runBuf s acts).active
        = s.batches.flatten ++ (s.active ++ appendedItems acts) := by
  induction acts with
  | nil => intro s; simp [runBuf, appendedItems]
  | cons a rest ih =>
    intro s
    cases a with
    | append x =>
      simp only [runBuf, stepBuf, appendedItems]
      rw [ih]
      simp
    | swap =>
      simp only [runBuf, stepBuf, appendedItems]
      rw [ih]
      simp

/-! ## Meter and instruments (spec section 4.3) -/

/-- Modelled from the spec: a Measurement before correlation: an
instrument identifier and a numeric value (numeric values abstracted to
integers; C8 does not depend on their arithmetic). -/
structure Measurement where
  instrument : String
  value : Int
deriving DecidableEq

/-- Modelled from the spec: a recorded measurement: the measurement plus
the attribute set and the Context snapshot active at record time. -/
structure MetricRecord where
  meas : Measurement
  attrs : List KeyValue
  ctx : Context
deriving DecidableEq

/-- Modelled from the spec: the Meter-side buffer of recorded
measurements awaiting collection. -/
structure MeterState where
  buffer : List MetricRecord
deriving DecidableEq

/-- Modelled from the spec: `record_batch_with_context` records multiple
measurements in one atomic step (a single append of the whole block),
every one sharing the one attribute set and the one Context snapshot. -/
def record_batch_with_context (st : MeterState) (cx : Context)
    (attrs : List KeyValue) (ms : List Measurement) : MeterState :=
  { st with
    buffer := st.buffer ++ ms.map (fun m => { meas := m, attrs := attrs, ctx := cx }) }

/-! ## The example program `main.rs` -/

/-- The error type `init_tracer` returns (`TraceError`), abstracted to its
message. -/
structure TraceError where
  message : String
deriving DecidableEq

/-- One observable telemetry action `main` performs after tracer
initialization, in the order `main.rs` performs them. -/
inductive MainEffect where
  | initMeterCall
  | registerValueObserver (name : String)
  | registerValueRecorder (name : String)
  | attachBaggage (entries : List KeyValue)
  | spanStarted (name : String)
  | shutdownTracerProviderCall
deriving DecidableEq

/-- The telemetry actions `main` performs when `init_tracer()` succeeds,
in program order: `init_meter()`, the `ex.com.one` observer and
`ex.com.two` recorder registrations, the baggage attach of
`ex.com/foo`/`ex.com/bar`, the `operation` span with the nested
`Sub operation...` span, and the final `shutdown_tracer_provider()`. -/
def mainEffectsOnSuccess : List MainEffect :=
  [ .initMeterCall,
    .registerValueObserver "ex.com.one",
    .registerValueRecorder "ex.com.two",
    .attachBaggage [⟨"ex.com/foo", "foo1"⟩, ⟨"ex.com/bar", "bar1"⟩],
    .spanStarted "operation",
    .spanStarted "Sub operation...",
    .shutdownTracerProviderCall ]

/-- `main` as a function of `init_tracer()`'s outcome: `let _tracer =
init_tracer()?;` is the first statement, so an initialization error is
returned immediately by `?` and none of the later actions run; on success
the rest of `main` runs and returns `Ok(())`. -/
def mainProgram (tracerInit : Except TraceError Unit) :
    Except TraceError Unit × List MainEffect :=
  match tracerInit with
  | .error e => (.error e, [])
  | .ok _ => (.ok (), mainEffectsOnSuccess)

/-! ## `delayed_interval` -/

/-- A stream of tick instants, indexed by tick number: `stream n` is the
elapsed time at which the stream's `n`-th element is yielded. -/
abbrev TickStream := Nat → Nat

/-- `StreamExt::skip(k)`: the stream with its first `k` elements removed. -/
def skipTicks (k : Nat) (s : TickStream) : TickStream := fun n => s (n + k)

/-- Modelled from the spec (and the source comment `Skip first immediate
tick from tokio`): `opentelemetry::util::tokio_interval_stream(d)` yields
its first tick immediately at elapsed time 0 and then every `d`; tick `n`
fires at elapsed time `n * d` (durations as natural numbers of
milliseconds). -/
def tokio_interval_stream (d : Nat) : TickStream := fun n => n * d

/-- From `main.rs`: `delayed_interval(duration)` is
`tokio_interval_stream(duration).skip(1)`. -/
def delayed_interval (d : Nat) : TickStream :=
  skipTicks 1 (tokio_interval_stream d)

/-! ## Claim theorems -/

/-- Claim C5: for every Context stack and set of baggage entries,
`attach(baggage_entries)` returns a guard such that while the guard is
held `current()` equals the parent Context with the new entries merged
over it (new entries win lookups, the parent's remaining entries show
through), and after the guard is released `current()` equals the prior
Context stack again: attach followed by release is a round-trip. -/
theorem attach_release_roundtrip (cs : ContextStack) (entries : List KeyValue) :
    current (attach cs entries) = mergeBaggage (current cs) entries ∧
    release (attach cs entries) = cs ∧
    (∀ k, lookupBaggage (current (attach cs entries)) k
        = ((entries.find? (fun kv => kv.key == k)).map (fun kv => kv.value)).orElse
            (fun _ => lookupBaggage (current cs) k)) := by
  refine ⟨rfl, rfl, fun k => ?_⟩
  simp only [current, attach, mergeBaggage, lookupBaggage, List.headD_cons,
    List.find?_append]
  cases entries.find? (fun kv => kv.key == k) <;> simp [Option.orElse]

/-- Claim C3: for every sequence of `add_event`/`set_attribute` calls made
on a span between `start_span` and `end`, the calls all succeed and the
exported (ended) Span's event sequence and attribute sequence are exactly
the call sequence, in call order. -/
theorem exported_span_preserves_call_order (w : TraceWorld) (name : String)
    (calls : List SpanCall) (t : Nat) :
    ∃ s2 s3, applyCalls (start_span w name none).1 calls = .ok s2 ∧
      Span.endSpan s2 t = .ok s3 ∧
      s3.events = callEvents calls ∧
      s3.attributes = callAttrs calls ∧
      s3.state = .ended := by
  obtain ⟨s2, h2, hst, hev, hat⟩ :=
    applyCalls_recording calls (start_span w name none).1 rfl
  refine ⟨s2, { s2 with state := .ended, endTime := some t }, h2, ?_, ?_, ?_, rfl⟩
  · simp [Span.endSpan, hst]
  · simpa [start_span] using hev
  · simpa [start_span] using hat

/-- Claim C4: ending a Span a second time fails with `InvalidStateError`,
the Span carries only the first `end()`'s timestamp, and any mutation
(`add_event`, `set_attribute`) after the Span is Ended also fails with
`InvalidStateError` (the failing operations return no new span, so the
Span is unchanged). -/
theorem end_twice_invalid_state (s s1 : Span) (t1 t2 : Nat)
    (h : s.endSpan t1 = Except.ok s1) (kv : KeyValue) (n : String)
    (attrs : List KeyValue) :
    s1.endTime = some t1 ∧ s1.state = .ended ∧
    s1.endSpan t2 = Except.error .invalidState ∧
    s1.set_attribute kv = Except.error .invalidState ∧
    s1.add_event n attrs = Except.error .invalidState := by
  unfold Span.endSpan at h
  cases hs : s.state with
  | ended => rw [hs] at h; cases h
  | recording =>
    rw [hs] at h
    injection h with h
    subst h
    exact ⟨rfl, rfl, rfl, rfl, rfl⟩

/-- A concrete recording span, as `start_span` would create it. -/
def sampleSpan : Span :=
  { spanId := 0, parentSpanId := none, name := "operation", startTime := 0,
    endTime := none, attributes := [], events := [], state := .recording }

/-- The concrete span `sampleSpan` once ended at time 3. -/
def sampleEnded : Span :=
  { sampleSpan with state := .ended, endTime := some 3 }

/-- Witness for C4 at the concrete span `sampleSpan` ended at time 3. -/
theorem end_twice_invalid_state_witness :
    sampleEnded.endTime = some 3 ∧ sampleEnded.state = .ended ∧
    sampleEnded.endSpan 5 = Except.error .invalidState ∧
    sampleEnded.set_attribute ⟨"k", "v"⟩ = Except.error .invalidState ∧
    sampleEnded.add_event "e" [] = Except.error .invalidState :=
  end_twice_invalid_state sampleSpan sampleEnded 3 5 rfl ⟨"k", "v"⟩ "e" []

/-- Claim C1: for every name and body, `in_span(name, body)` starts a
span, runs the body with the span's Context attached (the Context the body
sees has the new span active), returns the body's outcome unchanged
(whether `ok` or `error`), always ends the new span and enqueues it for
export with its end timestamp stamped — the export and the guard release
do not depend on the body's outcome — and pops the attached Context on
exit. -/
theorem in_span_ends_and_propagates (w : TraceWorld) (name : String)
    (body : Span → TraceWorld → Except ε α × Span × TraceWorld) :
    (in_span w name body).1 = (runBody w name body).1 ∧
    (in_span w name body).2.exported
      = (runBody w name body).2.2.exported
          ++ [{ (runBody w name body).2.1 with
                state := SpanState.ended,
                endTime := some (runBody w name body).2.2.clock }] ∧
    (currentCtx (attachContext (start_span w name none).2.2
        (start_span w name none).2.1)).activeSpan
      = some (start_span w name none).1.spanId ∧
    (in_span w name body).2.ctxStack = (runBody w name body).2.2.ctxStack.tail :=
  ⟨rfl, rfl, rfl, rfl⟩

/-- Claim C2: when `in_span "child"` runs inside `in_span "parent"` with
no explicit parent given, the exported child span's parent-span-id field
equals the exported parent span's span id (the child is exported first,
having ended first), because `start_span` uses the current Context's
active span as parent when none is given. -/
theorem nested_in_span_child_parent_link (w : TraceWorld) :
    ∃ child parent : Span,
      (nestedProgram w).2.exported = w.exported ++ [child, parent] ∧
      child.parentSpanId = some parent.spanId ∧
      child.name = "child" ∧ parent.name = "parent" ∧
      (∀ nm, (start_span w nm none).1.parentSpanId = (currentCtx w).activeSpan) := by
  refine ⟨{ spanId := w.nextId + 1, parentSpanId := some w.nextId, name := "child",
            startTime := w.clock + 1, endTime := some (w.clock + 2),
            attributes := [], events := [], state := .ended },
          { spanId := w.nextId, parentSpanId := (currentCtx w).activeSpan,
            name := "parent", startTime := w.clock, endTime := some (w.clock + 2),
            attributes := [], events := [], state := .ended },
          ?_, rfl, rfl, rfl, fun nm => rfl⟩
  simp [nestedProgram, in_span, runBody, start_span, attachContext,
    releaseContext, endAndExport, currentCtx, current]

/-- Claim C6: for every batch whose export call fails, the BatchProcessor
drops the batch (it is not recorded among the exported batches), increments
its internal error counter, and returns to Idle; the cycle's result is a
plain Processor (the `ExportError` is consumed, never propagated), and the
application-path append still succeeds on the resulting processor. -/
theorem export_failure_dropped_and_counted (p : Processor α)
    (exporter : List α → Except ExportError Unit) (e : ExportError)
    (h : exporter p.buffer = Except.error e) (x : α) :
    drainExport p exporter
      = { p with state := .idle, buffer := [], errorCount := p.errorCount + 1 } ∧
    (drainExport p exporter).exportedBatches = p.exportedBatches ∧
    appendItem (drainExport p exporter) x
      = { p with
          state := .idle,
          buffer := [x],
          errorCount := p.errorCount + 1 } := by
  have h1 : drainExport p exporter
      = { p with state := .idle, buffer := [], errorCount := p.errorCount + 1 } := by
    simp [drainExport, h]
  refine ⟨h1, ?_, ?_⟩
  · rw [h1]
  · rw [h1]; rfl

/-- A concrete processor holding one buffered item. -/
def procOneItem : Processor Nat :=
  { state := .idle, buffer := [7], errorCount := 0, exportedBatches := [] }

/-- An exporter whose export call always fails. -/
def alwaysFailingExporter : List Nat → Except ExportError Unit :=
  fun _ => .error { message := "network unreachable" }

/-- Witness for C6 at a concrete processor and an always-failing exporter. -/
theorem export_failure_dropped_and_counted_witness :
    drainExport procOneItem alwaysFailingExporter
      = { procOneItem with
          state := .idle,
          buffer := [],
          errorCount := procOneItem.errorCount + 1 } ∧
    (drainExport procOneItem alwaysFailingExporter).exportedBatches
      = procOneItem.exportedBatches ∧
    appendItem (drainExport procOneItem alwaysFailingExporter) 9
      = { procOneItem with
          state := .idle,
          buffer := [9],
          errorCount := procOneItem.errorCount + 1 } :=
  export_failure_dropped_and_counted procOneItem alwaysFailingExporter
    { message := "network unreachable" } rfl 9

lemma runBuf_append (as bs : List (BufAction α)) :
    ∀ s : BufState α, runBuf s (as ++ bs) = runBuf (runBuf s as) bs := by
  induction as with
  | nil => intro s; rfl
  | cons a rest ih =>
    intro s
    simp only [List.cons_append, runBuf]
    exact ih (stepBuf s a)

lemma appendedItems_append (as bs : List (BufAction α)) :
    appendedItems (as ++ bs) = appendedItems as ++ appendedItems bs := by
  induction as with
  | nil => rfl
  | cons a rest ih => cases a <;> simp [appendedItems, ih]

/-- Claim C7: for every interleaving of producers appending to the active
buffer with drain swaps (each interleaving of N concurrent producers is
one sequence of atomic actions containing N appends), the swapped-out
batches together with the still-active buffer hold exactly the appended
items, in order — no item lost, none duplicated — and after a final drain
swap the exported batches hold exactly the N appended items, so the total
exported count equals N. -/
theorem interleaving_no_loss_no_duplication {α : Type} (acts : List (BufAction α)) :
    (runBuf ⟨[], []⟩ acts).batches.flatten ++ (runBuf ⟨[], []⟩ acts).active
      = appendedItems acts ∧
    (runBuf ⟨[], []⟩ (acts ++ [.swap])).active = [] ∧
    (runBuf ⟨[], []⟩ (acts ++ [.swap])).batches.flatten = appendedItems acts ∧
    (runBuf ⟨[], []⟩ (acts ++ [.swap])).batches.flatten.length
      = (appendedItems acts).length := by
  have h1 : (runBuf (⟨[], []⟩ : BufState α) acts).batches.flatten
      ++ (runBuf (⟨[], []⟩ : BufState α) acts).active = appendedItems acts := by
    simpa using runBuf_join acts ⟨[], []⟩
  have h2 : (runBuf (⟨[], []⟩ : BufState α) (acts ++ [.swap])).active = [] := by
    rw [runBuf_append]
    rfl
  have h3 : (runBuf (⟨[], []⟩ : BufState α) (acts ++ [.swap])).batches.flatten
      = appendedItems acts := by
    have := runBuf_join (acts ++ [.swap]) (⟨[], []⟩ : BufState α)
    rw [h2, appendedItems_append] at this
    simpa [appendedItems] using this
  exact ⟨h1, h2, h3, by rw [h3]⟩

/-- Claim C8: for every meter buffer, Context snapshot, attribute set and
list of measurements, `record_batch_with_context` appends, in one atomic
step, one record per measurement to the buffer; the records carry the
measurements in order, and every record carries the one shared attribute
set and the one shared Context snapshot. -/
theorem record_batch_shared_context_and_attrs (st : MeterState) (cx : Context)
    (attrs : List KeyValue) (ms : List Measurement) :
    (record_batch_with_context st cx attrs ms).buffer
      = st.buffer ++ ms.map (fun m => { meas := m, attrs := attrs, ctx := cx }) ∧
    (ms.map (fun m => ({ meas := m, attrs := attrs, ctx := cx } : MetricRecord))).map
        MetricRecord.meas = ms ∧
    (ms.map (fun m => ({ meas := m, attrs := attrs, ctx := cx } : MetricRecord))).map
        MetricRecord.attrs = ms.map (fun _ => attrs) ∧
    (ms.map (fun m => ({ meas := m, attrs := attrs, ctx := cx } : MetricRecord))).map
        MetricRecord.ctx = ms.map (fun _ => cx) := by
  refine ⟨rfl, ?_, ?_, ?_⟩ <;> simp [List.map_map, Function.comp_def]

/-- Claim C9: if `init_tracer()` returns an error, `main` returns that
error immediately via the `?` operator: no telemetry action runs — no
`init_meter()` call, no instrument registration, no baggage attach, no
span start — while on success the full action sequence of `main.rs` runs
in program order. -/
theorem init_tracer_error_short_circuits_main (e : TraceError) :
    mainProgram (Except.error e) = (Except.error e, []) ∧
    MainEffect.initMeterCall ∉ (mainProgram (Except.error e)).2 ∧
    (∀ nm, MainEffect.registerValueObserver nm ∉ (mainProgram (Except.error e)).2) ∧
    (∀ nm, MainEffect.registerValueRecorder nm ∉ (mainProgram (Except.error e)).2) ∧
    (∀ es, MainEffect.attachBaggage es ∉ (mainProgram (Except.error e)).2) ∧
    (∀ nm, MainEffect.spanStarted nm ∉ (mainProgram (Except.error e)).2) ∧
    mainProgram (Except.ok ()) = (Except.ok (), mainEffectsOnSuccess) := by
  refine ⟨rfl, ?_, ?_, ?_, ?_, ?_, rfl⟩ <;> simp [mainProgram]

/-- Claim C10: for every duration `d`, `delayed_interval(d)` is the
underlying interval stream with its first element removed (`skip(1)`):
its tick `n` is the underlying stream's tick `n + 1`, so its first tick
fires at elapsed time `d` — not at elapsed time 0, where the underlying
tokio interval stream fires its immediate first tick — and in general its
tick `n` fires at elapsed time `(n + 1) * d`. -/
theorem delayed_interval_skips_immediate_tick (d n : Nat) :
    delayed_interval d n = tokio_interval_stream d (n + 1) ∧
    delayed_interval d 0 = d ∧
    tokio_interval_stream d 0 = 0 ∧
    delayed_interval d n = (n + 1) * d := by
  refine ⟨rfl, ?_, ?_, rfl⟩
  · simp [delayed_interval, skipTicks, tokio_interval_stream]
  · simp [tokio_interval_stream]

end OTelSpec
